import Mathlib

/-!
Verification of the GhostType push-to-talk dictation pipeline.

This file shallowly embeds the parts of the repository relevant to the
chord detector (`src/services/input_hook.py`), the audio capture adapter
(`src/services/audio.py`), the recognition engine wrapper
(`src/core/engine.py`) and the controller (`src/core/controller.py`),
and proves or refutes the specified properties about them.

Modelling conventions:
- Python `set` values are modelled as duplicate-free lists; `set.add` is
  insert-if-absent, `set.remove` is erase.
- External collaborators (pynput key resolution, the Vosk recognizer,
  the sounddevice stream) are modelled at their boundary as oracle
  parameters: the embedding is faithful for every behaviour of the
  external component.
- Blocking primitives with timeouts are modelled structurally: each
  operation returns, besides its result, an upper bound on the time it
  may spend blocked, as dictated by the timeout arguments in the source.
-/

namespace GhostType

/-- Key identifiers used by the input hook.  `ctrl_l`, `ctrl_r`, `alt_l`,
`alt_r`, `shift_l`, `shift_r` model the corresponding `pynput.keyboard.Key`
members; `char s` models a `pynput.keyboard.KeyCode` obtained from
`KeyCode.from_char`. -/
inductive Key where
  | ctrl_l | ctrl_r | alt_l | alt_r | shift_l | shift_r
  | char (s : String)
  deriving DecidableEq, Repr

/-- Python `set.add`: insert a key if not already present (sets modelled as
duplicate-free lists). -/
def insertKey (k : Key) (s : List Key) : List Key :=
  if k ∈ s then s else s ++ [k]

/-- Python `str.lower`, character-wise (strings modelled as `List Char`). -/
def pyLower (s : List Char) : List Char := s.map Char.toLower

/-- Helper for `pySplitPlus`: accumulates the current part while scanning. -/
def splitPlusAux : List Char → List Char → List (List Char)
  | [], acc => [acc]
  | c :: cs, acc => if c = '+' then acc :: splitPlusAux cs [] else splitPlusAux cs (acc ++ [c])

/-- Python `str.split('+')`: cut the string at every `+`. -/
def pySplitPlus (s : List Char) : List (List Char) := splitPlusAux s []

/-- Python `str.strip()`: drop leading and trailing whitespace. -/
def pyStrip (s : List Char) : List Char :=
  ((s.dropWhile Char.isWhitespace).reverse.dropWhile Char.isWhitespace).reverse

/-- `InputHook._parse_hotkey` (src/services/input_hook.py lines 35-66):
lower-case the hotkey string, split on `+`, strip each part; `ctrl`, `alt`
and `shift` each contribute their left and right key; any other part is
resolved through `KeyCode.from_char`, which is external to the repository
and is therefore an oracle `fromChar` (`none` models the call raising, in
which case the part is logged as unknown and excluded). -/
def parse_hotkey (fromChar : List Char → Option Key) (hotkey : String) : List Key :=
  (pySplitPlus (pyLower hotkey.toList)).foldl
    (fun keys part0 =>
      let part := pyStrip part0
      if part = "ctrl".toList then insertKey Key.ctrl_r (insertKey Key.ctrl_l keys)
      else if part = "alt".toList then insertKey Key.alt_r (insertKey Key.alt_l keys)
      else if part = "shift".toList then insertKey Key.shift_r (insertKey Key.shift_l keys)
      else
        match fromChar part with
        | some k => insertKey k keys
        | none => keys)
    []

/-- The behaviour of `pynput.keyboard.KeyCode.from_char` on the happy path:
it constructs a `KeyCode` carrying the character and does not raise. -/
def fromCharDefault : List Char → Option Key := fun s => some (Key.char (String.mk s))

/-- `InputHook._is_hotkey_pressed` (src/services/input_hook.py lines 68-74):
returns `true` iff ANY of the required keys is in the set of currently
pressed keys (the source iterates over `hotkey_keys` and returns `True` on
the first member found in `current_keys`). -/
def is_hotkey_pressed (hotkey_keys current_keys : List Key) : Bool :=
  hotkey_keys.any (fun k => k ∈ current_keys)

/-- `InputHook._on_press` (src/services/input_hook.py lines 76-85): add the
key to `current_keys`, then invoke the press callback iff
`_is_hotkey_pressed()` now holds (the source performs no edge detection on
the press side).  Returns the new pressed-key set and whether the press
callback was invoked. -/
def on_press (hotkey_keys current_keys : List Key) (k : Key) : List Key × Bool :=
  let cur := insertKey k current_keys
  (cur, is_hotkey_pressed hotkey_keys cur)

/-- `InputHook._on_release` (src/services/input_hook.py lines 87-100):
compute `was_active` from the current set, remove the key if present, and
invoke the release callback iff the hotkey was active and is no longer.
Returns the new pressed-key set and whether the release callback was
invoked. -/
def on_release (hotkey_keys current_keys : List Key) (k : Key) : List Key × Bool :=
  let was_active := is_hotkey_pressed hotkey_keys current_keys
  let cur := if k ∈ current_keys then current_keys.erase k else current_keys
  (cur, was_active && !is_hotkey_pressed hotkey_keys cur)

/-- Modelled from the spec: a chord is an ordered collection of key-groups;
it is satisfied iff every key-group has at least one member currently
pressed (AND across groups, OR within a group).  This definition follows
the spec's words; the source (`_parse_hotkey` + `_is_hotkey_pressed`) keeps
no group structure at all. -/
def chordSatisfiedSpec (groups : List (List Key)) (current_keys : List Key) : Prop :=
  ∀ g ∈ groups, ∃ k ∈ g, k ∈ current_keys

instance (groups : List (List Key)) (cur : List Key) :
    Decidable (chordSatisfiedSpec groups cur) := by
  unfold chordSatisfiedSpec; infer_instance

/-- Modelled from the spec: the key-groups the spec assigns to the chord
string `"ctrl+alt"`. -/
def ctrlAltGroups : List (List Key) :=
  [[Key.ctrl_l, Key.ctrl_r], [Key.alt_l, Key.alt_r]]

/-- The key set the source computes for the hotkey string `"ctrl+alt"`. -/
def ctrlAltKeys : List Key := parse_hotkey fromCharDefault "ctrl+alt"

example : ctrlAltKeys = [Key.ctrl_l, Key.ctrl_r, Key.alt_l, Key.alt_r] := by decide

/-- C1: the claim requires AND-across-groups / OR-within-group chord
satisfaction, so that holding only a ctrl key must NOT satisfy the chord
parsed from `"ctrl+alt"`.  The code's `_is_hotkey_pressed` instead returns
`true` as soon as ANY required key is pressed — contradicting both the
claim and its own docstring ("Check if hotkey combination is currently
pressed").  At the failing input (chord `"ctrl+alt"`, pressed keys
`{ctrl_l}`): the code reports the chord satisfied, while the spec's
group semantics reports it unsatisfied. -/
theorem C1_chord_satisfaction_code_bug :
    is_hotkey_pressed ctrlAltKeys [Key.ctrl_l] = true ∧
      ¬ chordSatisfiedSpec ctrlAltGroups [Key.ctrl_l] := by
  constructor
  · decide
  · decide

/-- Folding `InputHook._on_press` over a sequence of key-down events,
counting press-callback invocations. -/
def runPresses (hotkey_keys : List Key) : List Key → List Key → List Key × Nat
  | cur, [] => (cur, 0)
  | cur, k :: ks =>
    let s := on_press hotkey_keys cur k
    let r := runPresses hotkey_keys s.1 ks
    (r.1, (if s.2 then 1 else 0) + r.2)

/-- Characterisation used by the amended C2: the number of key-down events
after which the hotkey is (per `_is_hotkey_pressed`) satisfied — counting
every such event, not only unsatisfied-to-satisfied transitions. -/
def countSatAfter (hotkey_keys : List Key) : List Key → List Key → Nat
  | _, [] => 0
  | cur, k :: ks =>
    (if is_hotkey_pressed hotkey_keys (insertKey k cur) then 1 else 0) +
      countSatAfter hotkey_keys (insertKey k cur) ks

/-- C2 counterexample: with the chord parsed from `"ctrl+alt"` and
`ctrl_l`, `alt_l` already held, the chord is already satisfied (under the
code's predicate and also under the spec's group semantics), yet a further
press of `ctrl_r` invokes the press callback again — the claim says such a
press invokes nothing.  `_on_press` has no edge detection: it fires
whenever `_is_hotkey_pressed()` holds after inserting the key. -/
theorem C2_press_counterexample :
    is_hotkey_pressed ctrlAltKeys [Key.ctrl_l, Key.alt_l] = true ∧
      chordSatisfiedSpec ctrlAltGroups [Key.ctrl_l, Key.alt_l] ∧
      (on_press ctrlAltKeys [Key.ctrl_l, Key.alt_l] Key.ctrl_r).2 = true := by
  refine ⟨by decide, by decide, by decide⟩

/-- C2 amended: over every sequence of key-down events, the press callback
is invoked exactly once per event after which the chord is satisfied
(per `_is_hotkey_pressed`), regardless of whether it was satisfied before;
in particular a further key press while the chord is already satisfied
invokes the callback again. -/
theorem C2_press_fires_whenever_satisfied (hotkey_keys cur ks : List Key) :
    (runPresses hotkey_keys cur ks).2 = countSatAfter hotkey_keys cur ks := by
  induction ks generalizing cur with
  | nil => rfl
  | cons k ks ih =>
    simp only [runPresses, countSatAfter, on_press, ih]

/-- Witness for `C2_press_fires_whenever_satisfied` at a concrete run:
pressing `ctrl_l`, `alt_l`, `ctrl_r` from an empty pressed-key set invokes
the press callback three times (once per press, the chord being satisfied
after each one), not once. -/
theorem C2_press_fires_whenever_satisfied_witness :
    (runPresses ctrlAltKeys [] [Key.ctrl_l, Key.alt_l, Key.ctrl_r]).2 =
        countSatAfter ctrlAltKeys [] [Key.ctrl_l, Key.alt_l, Key.ctrl_r] ∧
      (runPresses ctrlAltKeys [] [Key.ctrl_l, Key.alt_l, Key.ctrl_r]).2 = 3 :=
  ⟨C2_press_fires_whenever_satisfied ctrlAltKeys []
    [Key.ctrl_l, Key.alt_l, Key.ctrl_r], by decide⟩

/-- A key event delivered to the input hook by the (serialized) key-event
source. -/
inductive KeyEvent where
  | press (k : Key)
  | release (k : Key)
  deriving DecidableEq, Repr

/-- One step of the input hook: dispatch the event to `_on_press` or
`_on_release`; the returned flag records whether the RELEASE callback was
invoked at this step (the press path never invokes it). -/
def hookStep (hotkey_keys cur : List Key) : KeyEvent → List Key × Bool
  | .press k => ((on_press hotkey_keys cur k).1, false)
  | .release k => on_release hotkey_keys cur k

/-- Folding `hookStep` over an event sequence, counting release-callback
invocations. -/
def runEvents (hotkey_keys : List Key) : List Key → List KeyEvent → List Key × Nat
  | cur, [] => (cur, 0)
  | cur, e :: es =>
    let s := hookStep hotkey_keys cur e
    let r := runEvents hotkey_keys s.1 es
    (r.1, (if s.2 then 1 else 0) + r.2)

/-- C3: the claim requires `onKeyUp` to invoke `onRelease` exactly once,
precisely when the CHORD (per the spec's AND-across-groups satisfaction)
transitions from satisfied to unsatisfied — in the spec's §8 scenario,
`release(ctrl_r)` while `alt_l` is still held must fire exactly once,
because the ctrl group loses its last pressed member.  The code instead
tests `_is_hotkey_pressed`, the any-key predicate that C1 reports as a
bug, which stays true as long as `alt_l` is held: at the failing input
(pressed keys `{alt_l, ctrl_r}`, releasing `ctrl_r`) the chord is
satisfied before and unsatisfied after per the spec, yet the release
callback is not invoked; over the whole §8 event sequence up to and
including `release(ctrl_r)`, the code fires zero release callbacks where
the claim demands exactly one. -/
theorem C3_release_chord_transition_code_bug :
    chordSatisfiedSpec ctrlAltGroups [Key.alt_l, Key.ctrl_r] ∧
      ¬ chordSatisfiedSpec ctrlAltGroups
        (on_release ctrlAltKeys [Key.alt_l, Key.ctrl_r] Key.ctrl_r).1 ∧
      (on_release ctrlAltKeys [Key.alt_l, Key.ctrl_r] Key.ctrl_r).2 = false ∧
      (runEvents ctrlAltKeys []
        [KeyEvent.press Key.ctrl_l, KeyEvent.press Key.alt_l,
          KeyEvent.press Key.ctrl_r, KeyEvent.release Key.ctrl_l,
          KeyEvent.release Key.ctrl_r]).2 = 0 := by
  refine ⟨by decide, by decide, by decide, by decide⟩

/-! ## Recognition engine (`src/core/engine.py`) -/

/-- A raw audio frame: a byte buffer, modelled as a list of byte values. -/
abbrev Frame := List Nat

/-- Outcome of one `KaldiRecognizer.AcceptWaveform` call together with the
subsequent `json.loads(Result())['text']` retrieval, as a function of the
audio the recognizer has already been fed and the new frame.  The Vosk
recognizer is external to the repository, so the outcome is an oracle:
`finalRes t` models `AcceptWaveform` returning true with parsed text `t`,
`noFinal` models it returning false, and `raised` models any of these
calls raising. -/
inductive AcceptOutcome where
  | finalRes (text : String)
  | noFinal
  | raised
  deriving DecidableEq, Repr

/-- Outcome of `json.loads(FinalResult())['text']`: `ok t` models a parsed
final text `t`, `raised` models the retrieval or parse raising. -/
inductive FinalOutcome where
  | ok (text : String)
  | raised
  deriving DecidableEq, Repr

/-- The state of `VoskEngine`: `recognizer = none` models
`self.recognizer is None`; `recognizer = some fed` models a live
`KaldiRecognizer` whose internal decoding state is determined by the list
`fed` of frames it has accepted since construction (a fresh recognizer has
`fed = []`). -/
structure VoskState where
  recognizer : Option (List Frame)
  deriving DecidableEq, Repr

/-- `VoskEngine.process_audio` (src/core/engine.py lines 90-119): if the
recognizer is `None`, log and return `""`; otherwise feed the frame —
on a final result return its text, on no final result return `""`, and on
an internal exception log and return `""`.  In every recognizer-present
branch the same recognizer object keeps the audio it was handed. -/
def process_audio (accept : List Frame → Frame → AcceptOutcome)
    (st : VoskState) (audio_bytes : Frame) : String × VoskState :=
  match st.recognizer with
  | none => ("", st)
  | some fed =>
    match accept fed audio_bytes with
    | .finalRes t => (t, ⟨some (fed ++ [audio_bytes])⟩)
    | .noFinal => ("", ⟨some (fed ++ [audio_bytes])⟩)
    | .raised => ("", ⟨some (fed ++ [audio_bytes])⟩)

/-- `VoskEngine.finalize` (src/core/engine.py lines 121-142): if the
recognizer is `None` return `""`; otherwise retrieve the final result —
on success reassign `self.recognizer` to a fresh `KaldiRecognizer` and
return the text; if the retrieval raises, return `""` from the `except`
handler WITHOUT reaching the reassignment, leaving the recognizer
unchanged. -/
def finalize (finalRes : List Frame → FinalOutcome) (st : VoskState) :
    String × VoskState :=
  match st.recognizer with
  | none => ("", st)
  | some fed =>
    match finalRes fed with
    | .ok t => (t, ⟨some []⟩)
    | .raised => ("", st)

/-- C9: `process_audio` is total (it is a function in this embedding, and
the source returns on every path: the `None` guard, both branches of
`AcceptWaveform`, and the `except` handler all return a string): it
returns the recognized text exactly when the engine reports a final
result, and returns `""` when there is no final result, when the
recognizer is uninitialized, or when the recognition step raises. -/
theorem C9_process_audio_total (accept : List Frame → Frame → AcceptOutcome)
    (st : VoskState) (b : Frame) :
    (st.recognizer = none → process_audio accept st b = ("", st)) ∧
      ∀ fed, st.recognizer = some fed →
        ((∀ t, accept fed b = .finalRes t → (process_audio accept st b).1 = t) ∧
          (accept fed b = .noFinal → (process_audio accept st b).1 = "") ∧
          (accept fed b = .raised → (process_audio accept st b).1 = "")) := by
  refine ⟨fun h => by simp [process_audio, h], fun fed hfed => ?_⟩
  refine ⟨fun t ht => ?_, fun ht => ?_, fun ht => ?_⟩ <;>
    simp [process_audio, hfed, ht]

/-- Witness for `C9_process_audio_total`: concrete oracles reporting a
final result, no final result, and an internal exception, plus the
uninitialized-recognizer case. -/
theorem C9_process_audio_total_witness :
    (process_audio (fun _ _ => .finalRes "hello world") ⟨some []⟩ [1]).1 = "hello world" ∧
      (process_audio (fun _ _ => .noFinal) ⟨some []⟩ [1]).1 = "" ∧
      (process_audio (fun _ _ => .raised) ⟨some []⟩ [1]).1 = "" ∧
      process_audio (fun _ _ => .noFinal) ⟨none⟩ [1] = ("", ⟨none⟩) :=
  ⟨((C9_process_audio_total (fun _ _ => .finalRes "hello world") ⟨some []⟩ [1]).2
      [] rfl).1 "hello world" rfl,
    ((C9_process_audio_total (fun _ _ => .noFinal) ⟨some []⟩ [1]).2 [] rfl).2.1 rfl,
    ((C9_process_audio_total (fun _ _ => .raised) ⟨some []⟩ [1]).2 [] rfl).2.2 rfl,
    (C9_process_audio_total (fun _ _ => .noFinal) ⟨none⟩ [1]).1 rfl⟩

/-- C10: if retrieving or parsing the engine's final result raises,
`finalize` returns `""` and the engine state is left entirely unchanged —
in particular the reset to a fresh recognizer does not occur, so the next
session starts with the previous session's decoder state. -/
theorem C10_finalize_error_no_reset (finalRes : List Frame → FinalOutcome)
    (st : VoskState) (fed : List Frame)
    (hrec : st.recognizer = some fed) (herr : finalRes fed = .raised) :
    finalize finalRes st = ("", st) := by
  simp [finalize, hrec, herr]

/-- Witness for `C10_finalize_error_no_reset`: a recognizer that has been
fed one frame and whose final-result retrieval raises keeps that fed
state. -/
theorem C10_finalize_error_no_reset_witness :
    finalize (fun _ => .raised) ⟨some [[1]]⟩ = ("", ⟨some [[1]]⟩) :=
  C10_finalize_error_no_reset (fun _ => .raised) ⟨some [[1]]⟩ [[1]] rfl rfl

/-! ## Controller (`src/core/controller.py`) -/

/-- The controller state relevant to the session-lifecycle claims:
`is_recording` is the session flag, `audio_capturing` models whether the
`AudioCapture` stream is running, `stop_event` the `threading.Event`,
`audio_queue`/`text_queue` the two bounded queues (capacities 1000 and
100), and `engine` the recognition engine state. -/
structure ControllerState where
  is_recording : Bool
  audio_capturing : Bool
  stop_event : Bool
  engine : VoskState
  audio_queue : List Frame
  text_queue : List String
  deriving DecidableEq, Repr

/-- `Controller._on_hotkey_press` (src/core/controller.py lines 78-83):
on a press-edge with the session idle, set it recording and start the
capture source. -/
def on_hotkey_press (st : ControllerState) : ControllerState :=
  if st.is_recording then st
  else { st with is_recording := true, audio_capturing := true }

/-- `Controller._on_hotkey_release` (src/core/controller.py lines 85-95):
on a release-edge with the session recording, clear the flag, stop the
capture source, call `engine.finalize()` and enqueue the returned text
iff it is non-empty (`if final_text:`). -/
def on_hotkey_release (finalRes : List Frame → FinalOutcome)
    (st : ControllerState) : ControllerState :=
  if st.is_recording then
    let r := finalize finalRes st.engine
    { st with
      is_recording := false
      audio_capturing := false
      engine := r.2
      text_queue := if r.1 ≠ "" then st.text_queue ++ [r.1] else st.text_queue }
  else st

/-- C4 counterexample: the claim asserts the release-edge resets the
facade's decoding state before the next session's first frame on EVERY
recording release-edge, but when the final-result retrieval raises the
reset is skipped: from a recording session whose recognizer has buffered
frame `[1]`, the release-edge leaves the recognizer still holding `[1]` —
the next session starts with the previous session's buffered state. -/
theorem C4_release_reset_counterexample :
    (on_hotkey_release (fun _ => .raised)
        ⟨true, true, false, ⟨some [[1]]⟩, [], []⟩).engine = ⟨some [[1]]⟩ ∧
      (on_hotkey_release (fun _ => .raised)
        ⟨true, true, false, ⟨some [[1]]⟩, [], []⟩).engine ≠ ⟨some []⟩ := by
  refine ⟨rfl, by decide⟩

/-- C4 amended: on a release-edge with the session recording, the pipeline
stops capture, calls `finalize()` and enqueues the returned text iff it is
non-empty; PROVIDED the final-result retrieval succeeds, the decoding
state is reset before the first frame of the next session is processed
(processing that first frame sees a recognizer fed exactly that frame and
nothing of the previous session); if the retrieval raises, the previous
session's decoding state persists into the next session. -/
theorem C4_release_finalize_enqueue_reset (finalRes : List Frame → FinalOutcome)
    (st : ControllerState) (fed : List Frame)
    (hrecording : st.is_recording = true) (hrec : st.engine.recognizer = some fed) :
    (on_hotkey_release finalRes st).is_recording = false ∧
      (on_hotkey_release finalRes st).audio_capturing = false ∧
      (on_hotkey_release finalRes st).text_queue =
        (if (finalize finalRes st.engine).1 ≠ "" then
          st.text_queue ++ [(finalize finalRes st.engine).1] else st.text_queue) ∧
      (∀ t, finalRes fed = .ok t →
        (on_hotkey_release finalRes st).engine = ⟨some []⟩ ∧
          ∀ accept b, (process_audio accept
            (on_hotkey_release finalRes st).engine b).2 = ⟨some [b]⟩) ∧
      (finalRes fed = .raised →
        (on_hotkey_release finalRes st).engine = st.engine) := by
  refine ⟨by simp [on_hotkey_release, hrecording], by simp [on_hotkey_release, hrecording],
    by simp [on_hotkey_release, hrecording], fun t ht => ?_, fun ht => ?_⟩
  · have heng : (on_hotkey_release finalRes st).engine = ⟨some []⟩ := by
      simp [on_hotkey_release, hrecording, finalize, hrec, ht]
    refine ⟨heng, fun accept b => ?_⟩
    rw [heng]
    cases hab : accept [] b <;> simp [process_audio, hab]
  · simp [on_hotkey_release, hrecording, finalize, hrec, ht]

/-- Witness for `C4_release_finalize_enqueue_reset`: a recording session
whose finalize succeeds with `"hello world"` enqueues it, resets the
recognizer, and the next session's first frame is processed against a
clean recognizer. -/
theorem C4_release_finalize_enqueue_reset_witness :
    (on_hotkey_release (fun _ => .ok "hello world")
        ⟨true, true, false, ⟨some [[1]]⟩, [], []⟩).text_queue = ["hello world"] ∧
      (on_hotkey_release (fun _ => .ok "hello world")
        ⟨true, true, false, ⟨some [[1]]⟩, [], []⟩).engine = ⟨some []⟩ ∧
      (process_audio (fun _ _ => .noFinal)
        (on_hotkey_release (fun _ => .ok "hello world")
          ⟨true, true, false, ⟨some [[1]]⟩, [], []⟩).engine [2]).2 = ⟨some [[2]]⟩ := by
  have h := C4_release_finalize_enqueue_reset (fun _ => .ok "hello world")
    ⟨true, true, false, ⟨some [[1]]⟩, [], []⟩ [[1]] rfl rfl
  refine ⟨?_, (h.2.2.2.1 "hello world" rfl).1,
    (h.2.2.2.1 "hello world" rfl).2 (fun _ _ => .noFinal) [2]⟩
  have := h.2.2.1
  simpa using this

/-! ## Audio capture (`src/services/audio.py`) -/

/-- The `AudioCapture` state relevant to the callback: the recording flag,
the shared frame queue (with its capacity, 1000 in the controller), and
counters for the two warnings the callback can log (a stream-status
warning and a queue-full drop warning). -/
structure CapState where
  is_recording : Bool
  queue : List Frame
  queue_cap : Nat
  drop_warnings : Nat
  status_warnings : Nat
  deriving DecidableEq, Repr

/-- `AudioCapture._audio_callback` (src/services/audio.py lines 39-58):
log a warning if the stream reports a status; then, only if recording,
attempt `queue.put(audio_bytes, block=False)` — a non-blocking enqueue
(the embedding is a total function: the callback never waits); when the
queue already holds `queue_cap` items the `queue.Full` branch drops the
frame and logs a warning. -/
def audio_callback (st : CapState) (indata : Frame) (status : Bool) : CapState :=
  let st1 := if status then { st with status_warnings := st.status_warnings + 1 } else st
  if st1.is_recording then
    if st1.queue.length < st1.queue_cap then { st1 with queue := st1.queue ++ [indata] }
    else { st1 with drop_warnings := st1.drop_warnings + 1 }
  else st1

/-- Delivering a sequence of frames to `_audio_callback` (no stream-status
conditions), with no consumer draining the queue. -/
def runCallbacks (st : CapState) (frames : List Frame) : CapState :=
  frames.foldl (fun s f => audio_callback s f false) st

lemma audio_callback_no_status (st : CapState) (f : Frame) :
    audio_callback st f false =
      if st.is_recording then
        if st.queue.length < st.queue_cap then { st with queue := st.queue ++ [f] }
        else { st with drop_warnings := st.drop_warnings + 1 }
      else st := rfl

lemma runCallbacks_recording (frames : List Frame) :
    ∀ st : CapState, st.is_recording = true →
      runCallbacks st frames =
        { st with
          queue := st.queue ++ frames.take (st.queue_cap - st.queue.length)
          drop_warnings :=
            st.drop_warnings + (frames.length - (st.queue_cap - st.queue.length)) } := by
  induction frames with
  | nil => intro st h; simp [runCallbacks]
  | cons f fs ih =>
    intro st h
    by_cases hfull : st.queue.length < st.queue_cap
    · have step : audio_callback st f false = { st with queue := st.queue ++ [f] } := by
        rw [audio_callback_no_status, if_pos h, if_pos hfull]
      have : runCallbacks st (f :: fs) = runCallbacks { st with queue := st.queue ++ [f] } fs := by
        simp [runCallbacks, step]
      rw [this, ih _ (by simp [h])]
      have hfree : st.queue_cap - st.queue.length = (st.queue_cap - (st.queue.length + 1)) + 1 := by
        omega
      simp only [List.length_append, List.length_cons, List.length_nil]
      congr 1
      · rw [hfree, List.take_succ_cons, List.append_assoc]
        rfl
      · omega
    · have step : audio_callback st f false = { st with drop_warnings := st.drop_warnings + 1 } := by
        rw [audio_callback_no_status, if_pos h, if_neg hfull]
      have : runCallbacks st (f :: fs) =
          runCallbacks { st with drop_warnings := st.drop_warnings + 1 } fs := by
        simp [runCallbacks, step]
      rw [this, ih _ (by simp [h])]
      have hfree : st.queue_cap - st.queue.length = 0 := by omega
      simp only [hfree, List.take_zero, List.append_nil, List.length_cons]
      congr 1
      omega

/-- C5: the capture callback enqueues a frame only while recording (when
not recording the state is untouched apart from the status warning), the
enqueue is the total non-blocking `put(block=False)`, and enqueuing
`Cf + 5` frames into a queue of capacity `Cf` with no consumer leaves
exactly the first `Cf` frames retained in arrival order with exactly 5
drop warnings recorded. -/
theorem C5_frame_overflow_drops :
    (∀ (cap : Nat) (frames : List Frame), frames.length = cap + 5 →
        (runCallbacks ⟨true, [], cap, 0, 0⟩ frames).queue = frames.take cap ∧
          (runCallbacks ⟨true, [], cap, 0, 0⟩ frames).queue.length = cap ∧
          (runCallbacks ⟨true, [], cap, 0, 0⟩ frames).drop_warnings = 5) ∧
      ∀ st f status, st.is_recording = false →
        ((audio_callback st f status).queue = st.queue ∧
          (audio_callback st f status).drop_warnings = st.drop_warnings) := by
  constructor
  · intro cap frames hlen
    rw [runCallbacks_recording frames ⟨true, [], cap, 0, 0⟩ rfl]
    refine ⟨by simp, ?_, by simp [hlen]⟩
    simp only [List.nil_append, List.length_take, List.length_nil, Nat.sub_zero]
    omega
  · intro st f status h
    cases status <;> simp [audio_callback, h]

/-- Witness for `C5_frame_overflow_drops`: eight frames into a queue of
capacity three leave the first three in order and record five drops; a
non-recording callback leaves the queue alone. -/
theorem C5_frame_overflow_drops_witness :
    (runCallbacks ⟨true, [], 3, 0, 0⟩
        [[0], [1], [2], [3], [4], [5], [6], [7]]).queue = [[0], [1], [2]] ∧
      (runCallbacks ⟨true, [], 3, 0, 0⟩
        [[0], [1], [2], [3], [4], [5], [6], [7]]).drop_warnings = 5 ∧
      (audio_callback ⟨false, [], 3, 0, 0⟩ [9] false).queue = [] :=
  ⟨(C5_frame_overflow_drops.1 3 [[0], [1], [2], [3], [4], [5], [6], [7]] rfl).1,
    (C5_frame_overflow_drops.1 3 [[0], [1], [2], [3], [4], [5], [6], [7]] rfl).2.2,
    (C5_frame_overflow_drops.2 ⟨false, [], 3, 0, 0⟩ [9] false rfl).1⟩

/-- `Controller.get_text` (src/core/controller.py lines 160-173): a
blocking `text_queue.get(timeout=timeout)` wrapped so that `queue.Empty`
becomes `none`.  The result is the dequeued head (FIFO) when text is
available, together with the remaining queue and an upper bound on the
time spent blocked: `some 0` when text is available at once, the given
timeout when the queue stays empty, and `none` (no bound — the source
default `timeout=None` blocks indefinitely) when no timeout is supplied
on an empty queue. -/
def get_text (text_queue : List String) (timeout_ms : Option Nat) :
    (Option String × List String) × Option Nat :=
  match text_queue with
  | t :: ts => ((some t, ts), some 0)
  | [] => ((none, []), timeout_ms)

/-- C7: with a caller-supplied timeout, `get_text` blocks at most until
the timeout (the wait bound exists and is at most the timeout), returns
`none` exactly when the timeout elapses with no text available, and
returns the FIFO head otherwise — never blocking indefinitely. -/
theorem C7_pull_timeout_bounded (q : List String) (t : Nat) :
    (get_text q (some t)).2 ≠ none ∧
      (∀ b, (get_text q (some t)).2 = some b → b ≤ t) ∧
      (q = [] → (get_text q (some t)).1.1 = none) ∧
      ∀ x xs, q = x :: xs →
        (get_text q (some t)).1.1 = some x ∧ (get_text q (some t)).1.2 = xs := by
  refine ⟨?_, ?_, ?_, ?_⟩
  · cases q <;> simp [get_text]
  · intro b hb
    cases q <;> simp [get_text] at hb <;> omega
  · intro h
    subst h
    rfl
  · intro x xs h
    subst h
    exact ⟨rfl, rfl⟩

/-- Witness for `C7_pull_timeout_bounded`: an empty queue with a 1000 ms
timeout yields `none` with wait bound 1000 ≤ 1000; a queue holding
`"hello world"` yields it immediately. -/
theorem C7_pull_timeout_bounded_witness :
    (get_text [] (some 1000)).1.1 = none ∧
      (∀ b, (get_text [] (some 1000)).2 = some b → b ≤ 1000) ∧
      (get_text ["hello world"] (some 100)).1.1 = some "hello world" :=
  ⟨(C7_pull_timeout_bounded [] 1000).2.2.1 rfl,
    (C7_pull_timeout_bounded [] 1000).2.1,
    ((C7_pull_timeout_bounded ["hello world"] 100).2.2.2 "hello world" [] rfl).1⟩

/-! ## Shutdown (`Controller.stop`, `Controller._worker_loop`) -/

/-- Severity of a log message. -/
inductive LogLevel where
  | info | warning | error
  deriving DecidableEq, Repr

/-- `audio_queue.get(timeout=0.1)` in `_worker_loop`, in milliseconds. -/
def pollIntervalMs : Nat := 100

/-- `worker_thread.join(timeout=5)` in `Controller.stop`, in milliseconds. -/
def joinTimeoutMs : Nat := 5000

/-- One pass of `Controller._worker_loop` (src/core/controller.py lines
97-123): `none` means the loop condition `not stop_event.is_set()` failed
and the worker returned; otherwise dequeue with the poll timeout (an empty
queue is the `queue.Empty` branch: continue), process the frame and
enqueue any produced text (`if text:`); any exception is caught and the
loop continues. -/
def worker_iteration (accept : List Frame → Frame → AcceptOutcome)
    (st : ControllerState) : Option ControllerState :=
  if st.stop_event then none
  else some (match st.audio_queue with
    | [] => st
    | b :: rest =>
      let r := process_audio accept st.engine b
      { st with
        audio_queue := rest
        engine := r.2
        text_queue := if r.1 ≠ "" then st.text_queue ++ [r.1] else st.text_queue })

/-- Observable outcome of `Controller.stop`: the new controller state, an
upper bound (ms) on the time the call spends waiting for the worker, and
the messages the body of `stop` itself logs. -/
structure StopOutcome where
  state : ControllerState
  wait_ms : Nat
  logs : List (LogLevel × String)
  deriving DecidableEq, Repr

/-- `Controller.stop` (src/core/controller.py lines 139-158): log, stop
capture if a session is active, stop the input hook, set the stop event,
and — if the worker thread is alive — `join(timeout=5)`, which waits
`min(worker_remaining_ms, 5000)` and returns whether or not the worker
has exited; finally log completion.  The body contains exactly two
`logger.info` calls and, in particular, no check of the join outcome and
no warning: `worker_alive` and `worker_remaining_ms` describe the
external worker thread. -/
def controller_stop (st : ControllerState) (worker_alive : Bool)
    (worker_remaining_ms : Nat) : StopOutcome :=
  { state := { st with
      audio_capturing := if st.is_recording then false else st.audio_capturing
      stop_event := true }
    wait_ms := if worker_alive then min worker_remaining_ms joinTimeoutMs else 0
    logs := [(LogLevel.info, "Stopping GhostType controller..."),
      (LogLevel.info, "Controller stopped")] }

/-- C6 counterexample: the claim says that when the worker task has not
returned within the grace period, shutdown proceeds anyway AND logs a
non-fatal warning.  With a backlog of three frames and a worker needing
100 s, `stop` waits only the 5 s join timeout (the task has not returned)
and proceeds — but its log contains no warning-level message at all: the
source never checks the join outcome. -/
theorem C6_stop_no_warning_counterexample :
    (controller_stop ⟨true, true, false, ⟨some []⟩, [[1], [2], [3]], []⟩
        true 100000).wait_ms = joinTimeoutMs ∧
      joinTimeoutMs < 100000 ∧
      ∀ l ∈ (controller_stop ⟨true, true, false, ⟨some []⟩, [[1], [2], [3]], []⟩
        true 100000).logs, l.1 ≠ LogLevel.warning := by
  refine ⟨by decide, by decide, by decide⟩

/-- C6 amended: `stop()` sets the stop signal, stops capture if a session
is active, and waits for the worker bounded by the 5 s join timeout —
hence it returns within `poll_interval + grace_period` and its wait does
not depend on the frame-queue backlog; the worker returns at its first
loop-condition check once the signal is set, regardless of backlog; if
the task has not returned by the grace period, shutdown proceeds anyway
but logs NO warning (the claim's warning is not in the code). -/
theorem C6_stop_bounded (st : ControllerState) (worker_alive : Bool)
    (worker_remaining_ms : Nat) :
    (controller_stop st worker_alive worker_remaining_ms).state.stop_event = true ∧
      (controller_stop st worker_alive worker_remaining_ms).wait_ms ≤
        pollIntervalMs + joinTimeoutMs ∧
      (∀ backlog, (controller_stop { st with audio_queue := backlog }
        worker_alive worker_remaining_ms).wait_ms =
          (controller_stop st worker_alive worker_remaining_ms).wait_ms) ∧
      (st.is_recording = true →
        (controller_stop st worker_alive worker_remaining_ms).state.audio_capturing = false) ∧
      (∀ l ∈ (controller_stop st worker_alive worker_remaining_ms).logs,
        l.1 ≠ LogLevel.warning) ∧
      ∀ accept s, s.stop_event = true → worker_iteration accept s = none := by
  refine ⟨rfl, ?_, fun backlog => rfl, fun h => by simp [controller_stop, h],
    ?_, fun accept s h => by simp [worker_iteration, h]⟩
  · simp only [controller_stop, pollIntervalMs, joinTimeoutMs]
    split <;> omega
  · intro l hl
    simp only [controller_stop, List.mem_cons, List.mem_singleton] at hl
    rcases hl with h | h | h
    · rw [h]; decide
    · rw [h]; decide
    · cases h

/-- Witness for `C6_stop_bounded` at a concrete state: a recording session
with a large backlog and a worker needing 100 s still yields a wait bound
within `poll_interval + grace_period`, capture stopped, and a worker that
exits at its first check. -/
theorem C6_stop_bounded_witness :
    (controller_stop ⟨true, true, false, ⟨some []⟩, [[1], [2], [3], [4]], []⟩
        true 100000).wait_ms ≤ pollIntervalMs + joinTimeoutMs ∧
      (controller_stop ⟨true, true, false, ⟨some []⟩, [[1], [2], [3], [4]], []⟩
        true 100000).state.audio_capturing = false ∧
      worker_iteration (fun _ _ => .noFinal)
        ⟨true, false, true, ⟨some []⟩, [[1], [2], [3], [4]], []⟩ = none :=
  ⟨(C6_stop_bounded ⟨true, true, false, ⟨some []⟩, [[1], [2], [3], [4]], []⟩
      true 100000).2.1,
    (C6_stop_bounded ⟨true, true, false, ⟨some []⟩, [[1], [2], [3], [4]], []⟩
      true 100000).2.2.2.1 rfl,
    (C6_stop_bounded ⟨true, true, false, ⟨some []⟩, [[1], [2], [3], [4]], []⟩
      true 100000).2.2.2.2.2 (fun _ _ => .noFinal)
      ⟨true, false, true, ⟨some []⟩, [[1], [2], [3], [4]], []⟩ rfl⟩

/-! ## Startup (`Controller._initialize_components`) -/

/-- The components `Controller._initialize_components` builds: the
capture service (its `__init__` only stores parameters), the engine, and
the input hook's parsed key set. -/
structure Components where
  engine : VoskState
  hotkey_keys : List Key
  deriving DecidableEq, Repr

/-- `Controller._initialize_components` (src/core/controller.py lines
46-76): construct `AudioCapture` (no failure path in its `__init__`),
then `VoskEngine` — whose model loading is external, `engine_ok = false`
modelling missing model resources, the one exception that propagates —
then `InputHook`, whose `__init__` computes `_parse_hotkey` (which
swallows unknown-token exceptions and logs them) and performs NO check on
the parsed key set: construction succeeds whatever the chord string
parses to. -/
def initComponents (engine_ok : Bool) (fromChar : List Char → Option Key)
    (hotkey : String) : Except String Components :=
  if engine_ok then
    .ok { engine := ⟨some []⟩, hotkey_keys := parse_hotkey fromChar hotkey }
  else .error "Failed to load Vosk model"

/-- A `KeyCode.from_char` behaviour under which no character token
resolves (every `from_char` call raises). -/
def fromCharNone : List Char → Option Key := fun _ => none

/-- C8 counterexample: with every token of the chord string `"foo+bar"`
unresolvable, the parsed key set is empty — zero resolvable key-groups —
yet startup is NOT aborted: `_initialize_components` returns successfully
(engine resources present), with an input hook whose key set is empty, so
the pipeline is constructed and runs with a chord that can never fire. -/
theorem C8_no_empty_chord_abort_counterexample :
    parse_hotkey fromCharNone "foo+bar" = [] ∧
      initComponents true fromCharNone "foo+bar" =
        .ok { engine := ⟨some []⟩, hotkey_keys := [] } := by
  refine ⟨by decide, ?_⟩
  have h : parse_hotkey fromCharNone "foo+bar" = [] := by decide
  simp [initComponents, h]

/-- C8 amended: a chord string parsing to zero resolvable key-groups does
NOT abort startup — unknown tokens are only logged and excluded, and
component construction succeeds for every chord string whenever the
engine resources are present (the chord is then simply never satisfied,
the hotkey never fires); only missing engine resources abort. -/
theorem C8_startup_never_aborts_on_chord (fromChar : List Char → Option Key)
    (hotkey : String) :
    initComponents true fromChar hotkey =
        .ok { engine := ⟨some []⟩, hotkey_keys := parse_hotkey fromChar hotkey } ∧
      (∀ cur, is_hotkey_pressed [] cur = false) ∧
      initComponents false fromChar hotkey = .error "Failed to load Vosk model" := by
  exact ⟨rfl, fun cur => rfl, rfl⟩

/-- Witness for `C8_startup_never_aborts_on_chord` at the unresolvable
chord `"foo+bar"`: construction succeeds and the empty chord is never
satisfied. -/
theorem C8_startup_never_aborts_on_chord_witness :
    initComponents true fromCharNone "foo+bar" =
        .ok { engine := ⟨some []⟩, hotkey_keys := parse_hotkey fromCharNone "foo+bar" } ∧
      is_hotkey_pressed [] [Key.ctrl_l] = false :=
  ⟨(C8_startup_never_aborts_on_chord fromCharNone "foo+bar").1,
    (C8_startup_never_aborts_on_chord fromCharNone "foo+bar").2.1 [Key.ctrl_l]⟩

end GhostType
